import Mathlib

/-!
# Verification of the bank-reconciliation tool (src/app.py)

Shallow embedding of the two core components of the application:

* the tabular ingestor of `load_data` (CSV-first format resolution over an
  encoding priority list, header-row auto-detection by keyword scan, reload
  with the detected header, silent raw fallback when no header qualifies);
* the reconciliation engine (per-row derived `Match_Amount` / `Type`
  columns, `np.isclose`-based amount tolerance, optional date-window
  filtering, greedy first-fit matching over the ledger rows with in-place
  `Matched` flags).

Amounts are modelled as exact rationals (`ℚ`); parsed dates as an optional
day number (`Option ℤ`), `none` standing for pandas `NaT`.  String cells are
modelled as Lean `String`s; the Python substring test `kw in s.lower()` is
implemented character-by-character below.
-/

/-- Does `hay` start with `needle`?  (Character-list prefix test.) -/
def startsList : List Char → List Char → Bool
  | [], _ => true
  | _ :: _, [] => false
  | c :: cs, d :: ds => (c == d) && startsList cs ds

/-- Does `hay` contain `needle` as a contiguous substring?
Mirrors the Python expression `needle in hay` on strings. -/
def containsList : List Char → List Char → Bool
  | [], needle => needle.isEmpty
  | c :: rest, needle => startsList needle (c :: rest) || containsList rest needle

/-- Python `needle in hay.lower()` for `String`s: the haystack is lowered
character-by-character (all keywords searched for are lowercase ASCII). -/
def strContains (hay needle : String) : Bool :=
  containsList (hay.toList.map Char.toLower) needle.toList

/-- Does some cell of the row contain the keyword, case-insensitively?
Mirrors `any(kw in s for s in row_str)` after `row.astype(str).str.lower()`
in `load_data`. -/
def rowHasKw (row : List String) (kw : String) : Bool :=
  row.any (fun s => strContains s kw)

/-- Header-row qualification exactly as in `load_data` (src/app.py lines
64–67): a row qualifies when it looks like a bank header (`"narration"` and
`"date"` both appear in some cell) or like a book header (`"vch"` or
`"type"` appears, together with `"date"`). -/
def qualifiesHeader (row : List String) : Bool :=
  let isBankHeader := rowHasKw row "narration" && rowHasKw row "date"
  let isBookHeader := (rowHasKw row "vch" || rowHasKw row "type") && rowHasKw row "date"
  isBankHeader || isBookHeader

/-- The keyword set claimed by the specification for header detection. -/
def headerKeywordsClaim : List String :=
  ["narration", "debit", "credit", "withdraw", "deposit", "vch", "particulars", "account", "type"]

/-- Header qualification as the specification words it: a cell matching
`"date"` plus at least one cell matching a member of `headerKeywordsClaim`.
Stated for comparison with `qualifiesHeader`, which is taken from the code. -/
def qualifiesHeaderClaim (row : List String) : Bool :=
  rowHasKw row "date" && headerKeywordsClaim.any (fun kw => rowHasKw row kw)

/-- Header qualification with the keyword set the code actually uses:
`"date"` together with one of `"narration"`, `"vch"`, `"type"`. -/
def qualifiesHeaderAmended (row : List String) : Bool :=
  rowHasKw row "date" && (rowHasKw row "narration" || rowHasKw row "vch" || rowHasKw row "type")

/-- Top-to-bottom scan for the first qualifying row, reporting its index;
mirrors the `for i, row in df_raw.iterrows(): ... break` loop. -/
def findHeaderIdxFrom : ℕ → List (List String) → Option ℕ
  | _, [] => none
  | i, r :: rest => if qualifiesHeader r then some i else findHeaderIdxFrom (i + 1) rest

/-- Index of the detected header row among the scanned rows, if any. -/
def findHeaderIdx (rows : List (List String)) : Option ℕ :=
  findHeaderIdxFrom 0 rows

/-- Outcome of `load_data`'s header-resolution phase: either a table reloaded
with the given file row as header, or the `HeaderNotFound` failure that the
specification prescribes (the code never produces the latter). -/
inductive IngestOutcome : Type
  | table (headerRow : ℕ)
  | headerNotFound
deriving DecidableEq

/-- Header resolution as the code performs it (src/app.py lines 71–83): if a
row at scan index `i` qualifies, reload with `header = i + 1`; otherwise
silently return the initially parsed table, whose header is file row 0. -/
def headerResolve (rows : List (List String)) : IngestOutcome :=
  match findHeaderIdx rows with
  | some i => IngestOutcome.table (i + 1)
  | none => IngestOutcome.table 0

/-- Header resolution as claim C6 words it: strict failure when no row
qualifies.  Stated for comparison with `headerResolve`. -/
def headerResolveClaim (rows : List (List String)) : IngestOutcome :=
  match findHeaderIdx rows with
  | some i => IngestOutcome.table (i + 1)
  | none => IngestOutcome.headerNotFound

/-- A parsing strategy attempted by `load_data`: CSV decoding with a named
encoding, or spreadsheet (`pd.read_excel`) parsing. -/
inductive LoadAttempt : Type
  | csv (enc : String)
  | excel
deriving DecidableEq

/-- The encoding priority list of `load_data` (src/app.py line 35). -/
def encodings : List String := ["utf-8", "ISO-8859-1", "cp1252"]

/-- Format resolution as the code performs it (src/app.py lines 28–54).
`csvOk enc` abstracts "`pd.read_csv` succeeds under encoding `enc`";
`excelOk` abstracts "`pd.read_excel` succeeds".  The filename is a parameter
only so that claim C5 can be stated: `load_data` never consults it — it
always tries the CSV encodings in order and falls back to Excel. -/
def resolveFormat (_filename : String) (csvOk : String → Bool) (excelOk : Bool) :
    Option LoadAttempt :=
  match encodings.find? csvOk with
  | some enc => some (LoadAttempt.csv enc)
  | none => if excelOk then some LoadAttempt.excel else none

/-- Does `s` end with `suffx`?  (Character-list suffix test.) -/
def strEndsWith (s suffx : String) : Bool :=
  startsList suffx.toList.reverse s.toList.reverse

/-- Format resolution as claim C5 words it: extension decides the path, with
spreadsheet-first fallback only for absent or unrecognised extensions.
Stated for comparison with `resolveFormat`, which is taken from the code. -/
def resolveFormatClaim (filename : String) (csvOk : String → Bool) (excelOk : Bool) :
    Option LoadAttempt :=
  if strEndsWith filename ".csv" then
    (encodings.find? csvOk).map LoadAttempt.csv
  else if strEndsWith filename ".xlsx" || strEndsWith filename ".xls" then
    if excelOk then some LoadAttempt.excel else none
  else
    if excelOk then some LoadAttempt.excel
    else (encodings.find? csvOk).map LoadAttempt.csv

/-! ## The reconciliation engine -/

/-- A preprocessed ledger (book) row: the cleaned `Debit` and `Credit`
columns, the parsed `Date_Obj` (day number, `none` for `NaT`), the raw date
cell and narration cell carried through for match records, the remaining
original cells (`orig`, untouched by the engine), and the `Matched` flag. -/
structure BookTxn : Type where
  orig : List String
  rawDate : String
  narration : String
  debit : ℚ
  credit : ℚ
  dateObj : Option ℤ
  matched : Bool
deriving DecidableEq

/-- A preprocessed bank-statement row, symmetric to `BookTxn` with the
cleaned `Withdrawal` and `Deposit` columns. -/
structure BankTxn : Type where
  orig : List String
  rawDate : String
  narration : String
  withdrawal : ℚ
  deposit : ℚ
  dateObj : Option ℤ
  matched : Bool
deriving DecidableEq

/-- `Match_Amount` of a book row (src/app.py lines 159–161):
`Debit` if `Debit > 0`, else `Credit`. -/
def bookMatchAmount (r : BookTxn) : ℚ :=
  if r.debit > 0 then r.debit else r.credit

/-- `Type` of a book row (lines 162–164): `Receipt` if `Debit > 0`, else
`Payment`. -/
def bookRowKind (r : BookTxn) : String :=
  if r.debit > 0 then "Receipt" else "Payment"

/-- `Match_Amount` of a bank row (lines 198–200): `Deposit` if
`Deposit > 0`, else `Withdrawal`. -/
def bankMatchAmount (r : BankTxn) : ℚ :=
  if r.deposit > 0 then r.deposit else r.withdrawal

/-- `Type` of a bank row (lines 201–203): `Deposit` if `Deposit > 0`, else
`Withdrawal`. -/
def bankRowKind (r : BankTxn) : String :=
  if r.deposit > 0 then "Deposit" else "Withdrawal"

/-- The amount-tolerance test `np.isclose(a, amt, atol=0.01)` with numpy's
default relative tolerance `rtol = 1e-05`:
`|a - amt| <= atol + rtol * |amt|`.  `a` is the bank amount, `amt` the
ledger amount (lines 227 and 233). -/
def amountClose (a amt : ℚ) : Bool :=
  decide (|a - amt| ≤ 1 / 100 + |amt| / 100000)

/-- The candidate filter of the engine (lines 224–235): same target
direction, amount within `np.isclose` tolerance, not yet matched. -/
def isCandidate (amt : ℚ) (target : String) (b : BankTxn) : Bool :=
  (bankRowKind b == target) && amountClose (bankMatchAmount b) amt && (b.matched == false)

/-- `days_diff`: the absolute day distance between two parsed dates
(`(candidates['Date_Obj'] - book_date).abs().dt.days`). -/
def daysDiff (bd d : ℤ) : ℕ :=
  (bd - d).natAbs

/-- Indices (in original bank order) of the bank rows passing the candidate
filter for the given ledger amount and target direction. -/
def candIdxs (bank : List BankTxn) (target : String) (amt : ℚ) : List ℕ :=
  (List.range bank.length).filter (fun j =>
    match bank.get? j with
    | some k => isCandidate amt target k
    | none => false)

/-- Candidates surviving the date window when the ledger row has a parsed
date `d`: each is paired with its `days_diff`.  A candidate whose
`Date_Obj` is `NaT` is dropped, because `NaN <= date_tolerance` is false in
the code (line 241). -/
def validIdxs (bank : List BankTxn) (target : String) (amt : ℚ) (d : ℤ) (tol : ℕ) :
    List (ℕ × ℕ) :=
  (candIdxs bank target amt).filterMap (fun j =>
    match bank.get? j with
    | some k =>
        match k.dateObj with
        | some bd => if daysDiff bd d ≤ tol then some (j, daysDiff bd d) else none
        | none => none
    | none => none)

/-- First pair attaining the minimal second component (the stable
`sort_values('days_diff')` followed by `index[0]`). -/
def pickMin : List (ℕ × ℕ) → Option (ℕ × ℕ)
  | [] => none
  | q :: rest =>
    match pickMin rest with
    | none => some q
    | some q0 => if q0.2 < q.2 then some q0 else some q

/-- The bank row chosen for one ledger row (lines 224–246): among unmatched
direction-compatible amount-close bank rows, the first in bank order when
the ledger row has no parsed date; otherwise the date-window survivor with
the smallest `days_diff` (earliest bank row on ties). -/
def pickBank (bank : List BankTxn) (target : String) (amt : ℚ) (bookDate : Option ℤ)
    (tol : ℕ) : Option ℕ :=
  match bookDate with
  | none => (candIdxs bank target amt).head?
  | some d => (pickMin (validIdxs bank target amt d tol)).map (fun q => q.1)

/-- Set the `Matched` flag of the bank row at index `j`
(`bank_clean.at[bank_idx, 'Matched'] = True`). -/
def setBankMatched : List BankTxn → ℕ → List BankTxn
  | [], _ => []
  | k :: rest, 0 => { k with matched := true } :: rest
  | k :: rest, j + 1 => k :: setBankMatched rest j

/-- One emitted match record (lines 254–261). -/
structure MatchRec : Type where
  amount : ℚ
  mKind : String
  bookDate : String
  bankDate : String
  bookRef : String
  bankRef : String
deriving DecidableEq

/-- Build the match record for a paired book row and bank row. -/
def mkRec (b : BookTxn) (k : BankTxn) : MatchRec :=
  { amount := bookMatchAmount b
    mKind := bookRowKind b
    bookDate := b.rawDate
    bankDate := k.rawDate
    bookRef := b.narration
    bankRef := k.narration }

/-- The bank-side direction a book row must be paired with (lines 223–230):
`Deposit` for a `Receipt`, `Withdrawal` otherwise. -/
def targetKind (b : BookTxn) : String :=
  if bookRowKind b == "Receipt" then "Deposit" else "Withdrawal"

/-- One iteration of the reconciliation loop (src/app.py lines 215–261) for
a single book row: if its `Match_Amount` is zero the row is skipped
(`continue`); otherwise a bank row of the target direction is chosen by
`pickBank`, and on success both rows are flagged matched and a record is
emitted.  Returns the (possibly flagged) book row, the updated bank rows,
and the emitted records. -/
def reconcileStep (tol : ℕ) (b : BookTxn) (bank : List BankTxn) :
    BookTxn × List BankTxn × List MatchRec :=
  if bookMatchAmount b = 0 then (b, bank, [])
  else
    match pickBank bank (targetKind b) (bookMatchAmount b) b.dateObj tol with
    | none => (b, bank, [])
    | some j =>
        let recs := match bank.get? j with
          | some k => [mkRec b k]
          | none => []
        ({ b with matched := true }, setBankMatched bank j, recs)

/-- The greedy reconciliation loop: one pass over the book rows in original
order, threading the bank rows (whose `Matched` flags are consumed in
place).  Returns the updated book rows, updated bank rows, and the match
records in emission order. -/
def reconcile (tol : ℕ) : List BookTxn → List BankTxn →
    List BookTxn × List BankTxn × List MatchRec
  | [], bank => ([], bank, [])
  | b :: rest, bank =>
    let s := reconcileStep tol b bank
    let r := reconcile tol rest s.2.1
    (s.1 :: r.1, r.2.1, s.2.2 ++ r.2.2)

/-- The "Missing in Bank" bucket: book rows still unmatched
(`book_clean[book_clean['Matched'] == False]`, line 269). -/
def unmatchedBook (book : List BookTxn) : List BookTxn :=
  book.filter (fun b => b.matched == false)

/-- The "Missing in Books" bucket: bank rows still unmatched (line 270). -/
def unmatchedBank (bank : List BankTxn) : List BankTxn :=
  bank.filter (fun k => k.matched == false)

/-- Number of matched book rows. -/
def countMatchedBook (book : List BookTxn) : ℕ :=
  (book.filter (fun b => b.matched)).length

/-- Number of matched bank rows. -/
def countMatchedBank (bank : List BankTxn) : ℕ :=
  (bank.filter (fun k => k.matched)).length

/-- Everything the surrounding UI consumes from one engine run: the match
records, the matched count (`len(matches)`), and the two unmatched buckets. -/
def engineOutputs (tol : ℕ) (book : List BookTxn) (bank : List BankTxn) :
    List MatchRec × ℕ × List BookTxn × List BankTxn :=
  let r := reconcile tol book bank
  (r.2.2, r.2.2.length, unmatchedBook r.1, unmatchedBank r.2.1)

/-- A book row with its `Matched` flag cleared; two rows with the same
`stripBook` image differ at most in their flag. -/
def stripBook (b : BookTxn) : BookTxn := { b with matched := false }

/-- A bank row with its `Matched` flag cleared. -/
def stripBank (k : BankTxn) : BankTxn := { k with matched := false }

/-- Frame relation for book rows across a reconciliation run: every field
except the `Matched` flag is untouched, and the flag moves only from `false`
to `true`. -/
def bookFrame (a b : BookTxn) : Prop :=
  stripBook b = stripBook a ∧ (a.matched = true → b.matched = true)

/-- Frame relation for bank rows across a reconciliation run. -/
def bankFrame (a b : BankTxn) : Prop :=
  stripBank b = stripBank a ∧ (a.matched = true → b.matched = true)

/-! ## Concrete rows used in scenario theorems, counterexamples and
witnesses -/

/-- Ledger Payment row "A" of magnitude 200 (first in row order). -/
def exA : BookTxn :=
  { orig := [], rawDate := "", narration := "A", debit := 0, credit := 200,
    dateObj := none, matched := false }

/-- Ledger Payment row "B" of magnitude 200 (second in row order). -/
def exB : BookTxn :=
  { orig := [], rawDate := "", narration := "B", debit := 0, credit := 200,
    dateObj := none, matched := false }

/-- Bank Withdrawal row of magnitude 200. -/
def exW : BankTxn :=
  { orig := [], rawDate := "", narration := "W", withdrawal := 200, deposit := 0,
    dateObj := none, matched := false }

/-- Ledger Payment row of magnitude 200 carrying a parsed date (day 0). -/
def exL : BookTxn :=
  { orig := [], rawDate := "01/01/2024", narration := "L", debit := 0, credit := 200,
    dateObj := some 0, matched := false }

/-- Bank Withdrawal row of magnitude 200 without a parsed date. -/
def exK : BankTxn :=
  { orig := [], rawDate := "", narration := "K", withdrawal := 200, deposit := 0,
    dateObj := none, matched := false }

/-- Bank Withdrawal row of magnitude 200 with a parsed date (day 3). -/
def exKD : BankTxn :=
  { orig := [], rawDate := "04/01/2024", narration := "KD", withdrawal := 200, deposit := 0,
    dateObj := some 3, matched := false }

/-- Zero-magnitude ledger row (both amount columns zero), e.g. an opening
balance line. -/
def exZ : BookTxn :=
  { orig := [], rawDate := "", narration := "opening", debit := 0, credit := 0,
    dateObj := none, matched := false }

/-- Zero-magnitude bank row (both amount columns zero); its derived `Type`
is `Withdrawal` because the `Deposit > 0` test fails. -/
def exZeroBank : BankTxn :=
  { orig := [], rawDate := "", narration := "zb", withdrawal := 0, deposit := 0,
    dateObj := none, matched := false }

/-- Ledger Payment row of magnitude 0.01 — within the `np.isclose`
tolerance of a zero bank amount. -/
def exTiny : BookTxn :=
  { orig := [], rawDate := "", narration := "tiny", debit := 0, credit := 1 / 100,
    dateObj := none, matched := false }

/-- Ledger Payment row of magnitude 200. -/
def exP : BookTxn :=
  { orig := [], rawDate := "", narration := "P", debit := 0, credit := 200,
    dateObj := none, matched := false }

/-- Bank Withdrawal row of magnitude 200.011: off by 0.011 from `exP`. -/
def exQ : BankTxn :=
  { orig := [], rawDate := "", narration := "Q", withdrawal := 200011 / 1000, deposit := 0,
    dateObj := none, matched := false }

/-- Ledger row whose inbound (`Debit`) column holds the negative value -5
while the outbound column is zero. -/
def exNeg : BookTxn :=
  { orig := [], rawDate := "", narration := "neg", debit := -5, credit := 0,
    dateObj := none, matched := false }

/-- Ledger Receipt row with Debit 5, Credit 0 (ordinary positive row). -/
def exPos : BookTxn :=
  { orig := [], rawDate := "", narration := "pos", debit := 5, credit := 0,
    dateObj := none, matched := false }

/-- Bank Deposit row with Deposit 5, Withdrawal 0. -/
def exPosBank : BankTxn :=
  { orig := [], rawDate := "", narration := "posb", withdrawal := 0, deposit := 5,
    dateObj := none, matched := false }

/-! ## Helper lemmas -/

theorem head?_mem {α : Type} {l : List α} {a : α} (h : l.head? = some a) : a ∈ l := by
  cases l with
  | nil => simp at h
  | cons x xs => simp only [List.head?] at h; injection h with h; exact h ▸ List.mem_cons_self x xs

theorem get?_mem {α : Type} {l : List α} {i : ℕ} {a : α} (h : l.get? i = some a) : a ∈ l := by
  induction l generalizing i with
  | nil => simp at h
  | cons x xs ih =>
    cases i with
    | zero => simp only [List.get?] at h; injection h with h; exact h ▸ List.mem_cons_self x xs
    | succ i => exact List.mem_cons_of_mem x (ih h)

theorem pickMin_mem : ∀ (l : List (ℕ × ℕ)) (q : ℕ × ℕ), pickMin l = some q → q ∈ l := by
  intro l
  induction l with
  | nil => intro q h; simp [pickMin] at h
  | cons p rest ih =>
    intro q h
    simp only [pickMin] at h
    cases hrec : pickMin rest with
    | none =>
      rw [hrec] at h
      injection h with h
      exact h ▸ List.mem_cons_self p rest
    | some q0 =>
      rw [hrec] at h
      simp only at h
      by_cases hlt : q0.2 < p.2
      · rw [if_pos hlt] at h
        injection h with h
        exact h ▸ List.mem_cons_of_mem p (ih q0 hrec)
      · rw [if_neg hlt] at h
        injection h with h
        exact h ▸ List.mem_cons_self p rest

theorem candIdxs_sound {bank : List BankTxn} {target : String} {amt : ℚ} {j : ℕ}
    (h : j ∈ candIdxs bank target amt) :
    ∃ k, bank.get? j = some k ∧ isCandidate amt target k = true := by
  simp only [candIdxs, List.mem_filter, List.mem_range] at h
  obtain ⟨_, hp⟩ := h
  cases hk : bank.get? j with
  | none => rw [hk] at hp; simp at hp
  | some k => rw [hk] at hp; exact ⟨k, rfl, hp⟩

theorem validIdxs_sound {bank : List BankTxn} {target : String} {amt : ℚ} {d : ℤ}
    {tol : ℕ} {j w : ℕ} (h : (j, w) ∈ validIdxs bank target amt d tol) :
    ∃ k bd, bank.get? j = some k ∧ isCandidate amt target k = true ∧
      k.dateObj = some bd ∧ daysDiff bd d ≤ tol := by
  simp only [validIdxs, List.mem_filterMap] at h
  obtain ⟨j', hj', hf⟩ := h
  cases hk : bank.get? j' with
  | none => rw [hk] at hf; simp at hf
  | some k =>
    rw [hk] at hf
    simp only at hf
    cases hd : k.dateObj with
    | none => rw [hd] at hf; simp at hf
    | some bd =>
      rw [hd] at hf
      simp only at hf
      by_cases htol : daysDiff bd d ≤ tol
      · rw [if_pos htol] at hf
        injection hf with hf
        have hj : j' = j := congrArg Prod.fst hf
        obtain ⟨k', hk', hc'⟩ := candIdxs_sound hj'
        rw [hk] at hk'
        injection hk' with hk'
        subst hj
        exact ⟨k, bd, hk, hk' ▸ hc', hd, htol⟩
      · rw [if_neg htol] at hf; simp at hf

theorem setBankMatched_get?_ne :
    ∀ (bank : List BankTxn) (j i : ℕ), i ≠ j →
      (setBankMatched bank j).get? i = bank.get? i := by
  intro bank
  induction bank with
  | nil => intro j i _; cases j <;> rfl
  | cons k rest ih =>
    intro j i hne
    cases j with
    | zero =>
      cases i with
      | zero => exact absurd rfl hne
      | succ i => rfl
    | succ j =>
      cases i with
      | zero => rfl
      | succ i => exact ih j i (fun h => hne (congrArg Nat.succ h))

theorem setBankMatched_get?_eq :
    ∀ (bank : List BankTxn) (j : ℕ) (k : BankTxn), bank.get? j = some k →
      (setBankMatched bank j).get? j = some { k with matched := true } := by
  intro bank
  induction bank with
  | nil => intro j k h; simp at h
  | cons b rest ih =>
    intro j k h
    cases j with
    | zero => simp only [List.get?] at h; injection h with h; subst h; rfl
    | succ j => exact ih j k h

theorem countMatchedBank_cons (k : BankTxn) (l : List BankTxn) :
    countMatchedBank (k :: l) =
      (if k.matched = true then 1 else 0) + countMatchedBank l := by
  simp only [countMatchedBank, List.filter]
  cases hm : k.matched <;> simp [Nat.add_comm]

theorem setBankMatched_count :
    ∀ (bank : List BankTxn) (j : ℕ) (k : BankTxn), bank.get? j = some k →
      k.matched = false →
      countMatchedBank (setBankMatched bank j) = countMatchedBank bank + 1 := by
  intro bank
  induction bank with
  | nil => intro j k h; simp at h
  | cons b rest ih =>
    intro j k h hm
    cases j with
    | zero =>
      simp only [List.get?] at h
      injection h with h
      subst h
      simp only [setBankMatched, countMatchedBank_cons, hm]
      simp
      omega
    | succ j =>
      simp only [setBankMatched, countMatchedBank_cons, ih j k h hm]
      omega

theorem bankFrame_refl (k : BankTxn) : bankFrame k k := ⟨rfl, id⟩

theorem bankFrame_trans {a b c : BankTxn} (h1 : bankFrame a b) (h2 : bankFrame b c) :
    bankFrame a c := ⟨h2.1.trans h1.1, fun h => h2.2 (h1.2 h)⟩

theorem forall2_refl {α : Type} {R : α → α → Prop} (hR : ∀ a, R a a) :
    ∀ l : List α, List.Forall₂ R l l := by
  intro l
  induction l with
  | nil => exact List.Forall₂.nil
  | cons x xs ih => exact List.Forall₂.cons (hR x) ih

theorem forall2_trans {α : Type} {R : α → α → Prop}
    (hR : ∀ a b c, R a b → R b c → R a c) :
    ∀ {l1 l2 l3 : List α}, List.Forall₂ R l1 l2 → List.Forall₂ R l2 l3 →
      List.Forall₂ R l1 l3 := by
  intro l1 l2 l3 h12 h23
  induction h12 generalizing l3 with
  | nil => cases h23; exact List.Forall₂.nil
  | cons hab h12' ih =>
    cases h23 with
    | cons hbc h23' => exact List.Forall₂.cons (hR _ _ _ hab hbc) (ih h23')

theorem setBankMatched_frame :
    ∀ (bank : List BankTxn) (j : ℕ), List.Forall₂ bankFrame bank (setBankMatched bank j) := by
  intro bank
  induction bank with
  | nil => intro j; cases j <;> exact List.Forall₂.nil
  | cons k rest ih =>
    intro j
    cases j with
    | zero =>
      exact List.Forall₂.cons ⟨rfl, fun _ => rfl⟩ (forall2_refl bankFrame_refl rest)
    | succ j => exact List.Forall₂.cons (bankFrame_refl k) (ih j)

theorem pickBank_sound {bank : List BankTxn} {target : String} {amt : ℚ}
    {od : Option ℤ} {tol : ℕ} {j : ℕ} (h : pickBank bank target amt od tol = some j) :
    ∃ k, bank.get? j = some k ∧ isCandidate amt target k = true ∧
      ∀ d, od = some d → ∃ bd, k.dateObj = some bd ∧ daysDiff bd d ≤ tol := by
  cases od with
  | none =>
    simp only [pickBank] at h
    obtain ⟨k, hk, hc⟩ := candIdxs_sound (head?_mem h)
    exact ⟨k, hk, hc, fun d hd => by simp at hd⟩
  | some d =>
    simp only [pickBank] at h
    cases hq : pickMin (validIdxs bank target amt d tol) with
    | none => rw [hq] at h; simp at h
    | some q =>
      rw [hq] at h
      simp only [Option.map_some'] at h
      injection h with h
      obtain ⟨j', w⟩ := q
      have hmem := pickMin_mem _ _ hq
      obtain ⟨k, bd, hk, hc, hbd, htol⟩ := validIdxs_sound hmem
      simp only at h
      subst h
      exact ⟨k, hk, hc, fun d' hd' => by injection hd' with hd'; exact hd' ▸ ⟨bd, hbd, htol⟩⟩

theorem isCandidate_unmatched {amt : ℚ} {target : String} {k : BankTxn}
    (h : isCandidate amt target k = true) : k.matched = false := by
  simp only [isCandidate, Bool.and_eq_true, beq_iff_eq] at h
  exact h.2

theorem bookFrame_refl (b : BookTxn) : bookFrame b b := ⟨rfl, id⟩

theorem reconcileStep_book_frame (tol : ℕ) (b : BookTxn) (bank : List BankTxn) :
    bookFrame b (reconcileStep tol b bank).1 := by
  simp only [reconcileStep]
  split
  · exact bookFrame_refl b
  · split
    · exact bookFrame_refl b
    · exact ⟨rfl, fun _ => rfl⟩

theorem reconcileStep_bank_frame (tol : ℕ) (b : BookTxn) (bank : List BankTxn) :
    List.Forall₂ bankFrame bank (reconcileStep tol b bank).2.1 := by
  simp only [reconcileStep]
  split
  · exact forall2_refl bankFrame_refl bank
  · split
    · exact forall2_refl bankFrame_refl bank
    · exact setBankMatched_frame bank _

theorem reconcileStep_zero (tol : ℕ) (b : BookTxn) (bank : List BankTxn)
    (h : bookMatchAmount b = 0) : reconcileStep tol b bank = (b, bank, []) := by
  simp [reconcileStep, h]

theorem reconcileStep_count_bank (tol : ℕ) (b : BookTxn) (bank : List BankTxn) :
    countMatchedBank (reconcileStep tol b bank).2.1 =
      countMatchedBank bank + (reconcileStep tol b bank).2.2.length := by
  simp only [reconcileStep]
  split
  · simp
  · cases hj : pickBank bank (targetKind b) (bookMatchAmount b) b.dateObj tol with
    | none => simp
    | some j =>
      obtain ⟨k, hk, hc, _⟩ := pickBank_sound hj
      simp only [hk]
      simp only [List.length_cons, List.length_nil]
      exact setBankMatched_count bank j k hk (isCandidate_unmatched hc)

theorem reconcileStep_count_book (tol : ℕ) (b : BookTxn) (bank : List BankTxn)
    (h : b.matched = false) :
    (if (reconcileStep tol b bank).1.matched = true then 1 else 0) =
      (reconcileStep tol b bank).2.2.length := by
  simp only [reconcileStep]
  split
  · simp [h]
  · cases hj : pickBank bank (targetKind b) (bookMatchAmount b) b.dateObj tol with
    | none => simp [h]
    | some j =>
      obtain ⟨k, hk, _, _⟩ := pickBank_sound hj
      simp only [hk]
      simp

theorem countMatchedBook_cons (b : BookTxn) (l : List BookTxn) :
    countMatchedBook (b :: l) =
      (if b.matched = true then 1 else 0) + countMatchedBook l := by
  simp only [countMatchedBook, List.filter]
  cases hm : b.matched <;> simp [Nat.add_comm]

theorem reconcile_book_frame :
    ∀ (tol : ℕ) (book : List BookTxn) (bank : List BankTxn),
      List.Forall₂ bookFrame book (reconcile tol book bank).1 := by
  intro tol book
  induction book with
  | nil => intro bank; exact List.Forall₂.nil
  | cons b rest ih =>
    intro bank
    simp only [reconcile]
    exact List.Forall₂.cons (reconcileStep_book_frame tol b bank) (ih _)

theorem reconcile_bank_frame :
    ∀ (tol : ℕ) (book : List BookTxn) (bank : List BankTxn),
      List.Forall₂ bankFrame bank (reconcile tol book bank).2.1 := by
  intro tol book
  induction book with
  | nil => intro bank; exact forall2_refl bankFrame_refl bank
  | cons b rest ih =>
    intro bank
    simp only [reconcile]
    exact forall2_trans (fun a b c => @bankFrame_trans a b c)
      (reconcileStep_bank_frame tol b bank) (ih _)

theorem reconcile_zero_preserved :
    ∀ (tol : ℕ) (book : List BookTxn) (bank : List BankTxn) (i : ℕ) (a : BookTxn),
      book.get? i = some a → bookMatchAmount a = 0 →
      (reconcile tol book bank).1.get? i = some a := by
  intro tol book
  induction book with
  | nil => intro bank i a h _; simp at h
  | cons b rest ih =>
    intro bank i a h h0
    simp only [reconcile]
    cases i with
    | zero =>
      simp only [List.get?] at h
      injection h with h
      subst h
      simp only [List.get?, reconcileStep_zero tol b bank h0]
    | succ i => exact ih _ i a h h0

theorem reconcile_count_bank :
    ∀ (tol : ℕ) (book : List BookTxn) (bank : List BankTxn),
      countMatchedBank (reconcile tol book bank).2.1 =
        countMatchedBank bank + (reconcile tol book bank).2.2.length := by
  intro tol book
  induction book with
  | nil => intro bank; simp [reconcile]
  | cons b rest ih =>
    intro bank
    simp only [reconcile, List.length_append]
    rw [ih (reconcileStep tol b bank).2.1, reconcileStep_count_bank tol b bank]
    omega

theorem reconcile_count_book :
    ∀ (tol : ℕ) (book : List BookTxn) (bank : List BankTxn),
      (∀ a ∈ book, a.matched = false) →
      countMatchedBook (reconcile tol book bank).1 =
        (reconcile tol book bank).2.2.length := by
  intro tol book
  induction book with
  | nil => intro bank _; simp [reconcile, countMatchedBook]
  | cons b rest ih =>
    intro bank hall
    simp only [reconcile, List.length_append, countMatchedBook_cons]
    rw [ih (reconcileStep tol b bank).2.1 (fun a ha => hall a (List.mem_cons_of_mem b ha)),
      reconcileStep_count_book tol b bank (hall b (List.mem_cons_self b rest))]

theorem qualifiesHeader_eq_amended :
    ∀ row, qualifiesHeader row = qualifiesHeaderAmended row := by
  intro row
  simp only [qualifiesHeader, qualifiesHeaderAmended]
  cases rowHasKw row "narration" <;> cases rowHasKw row "date" <;>
    cases rowHasKw row "vch" <;> cases rowHasKw row "type" <;> rfl

theorem findHeaderIdxFrom_spec :
    ∀ (rows : List (List String)) (off i : ℕ), findHeaderIdxFrom off rows = some i →
      off ≤ i ∧ (∃ r, rows.get? (i - off) = some r ∧ qualifiesHeader r = true) ∧
        ∀ j r, j < i - off → rows.get? j = some r → qualifiesHeader r = false := by
  intro rows
  induction rows with
  | nil => intro off i h; simp [findHeaderIdxFrom] at h
  | cons r0 rest ih =>
    intro off i h
    simp only [findHeaderIdxFrom] at h
    cases hq : qualifiesHeader r0 with
    | true =>
      rw [if_pos hq] at h
      injection h with h
      subst h
      exact ⟨le_refl off, ⟨r0, by simp, hq⟩, fun j r hj _ => absurd hj (by omega)⟩
    | false =>
      rw [if_neg (by simp [hq])] at h
      obtain ⟨hle, ⟨rr, hrr, hqr⟩, hmin⟩ := ih (off + 1) i h
      refine ⟨by omega, ⟨rr, ?_, hqr⟩, ?_⟩
      · have he : i - off = (i - (off + 1)) + 1 := by omega
        rw [he]
        exact hrr
      · intro j r hj hr
        cases j with
        | zero =>
          simp only [List.get?] at hr
          injection hr with hr
          exact hr ▸ hq
        | succ j =>
          have hj' : j < i - (off + 1) := by omega
          exact hmin j r hj' hr

/-! ## Claim C1 -/

unseal Rat.mul Rat.inv Rat.add Rat.sub in
/-- Claim C1 (counterexample): zero-magnitude transactions are not "in
neither bucket", on either table.  The ledger row `exZ` (both amount
columns zero) ends the run unmatched and therefore appears in the "Missing
in Bank" tab; and the zero-magnitude bank row `exZeroBank` is even MATCHED
by the 0.01 ledger Payment `exTiny` (the `amt == 0` skip exists only on the
ledger side, and `np.isclose(0, 0.01, atol=0.01)` passes), so it lands in
the matched set. -/
theorem c1_counterexample :
    bookMatchAmount exZ = 0 ∧ exZ ∈ unmatchedBook (reconcile 5 [exZ] []).1 ∧
    bankMatchAmount exZeroBank = 0 ∧
    (reconcile 5 [exTiny] [exZeroBank]).2.1 = [{ exZeroBank with matched := true }] ∧
    (reconcile 5 [exTiny] [exZeroBank]).2.2.length = 1 := by
  decide

/-- Claim C1 (amended): after a completed reconciliation started with all
ledger flags cleared, every ledger row and every bank row is in exactly one
of {matched, unmatched}: membership in each unmatched bucket holds exactly
when the row's `Matched` flag is false, and the matched ledger rows, the
newly matched bank rows and the emitted match records are in one-to-one
correspondence.  Zero-magnitude LEDGER rows are skipped by the loop and
passed through unchanged — never matched — so they always land in the
ledger-unmatched bucket rather than in neither.  No such exclusion holds
for zero-magnitude BANK rows: they sit in the bank-unmatched bucket unless
consumed by a near-zero ledger amount within the `isclose` tolerance, in
which case they are matched (see the counterexample). -/
theorem c1_exactly_once_bucketing (tol : ℕ) (book : List BookTxn) (bank : List BankTxn)
    (hinit : ∀ a ∈ book, a.matched = false) :
    countMatchedBook (reconcile tol book bank).1 = (reconcile tol book bank).2.2.length ∧
    countMatchedBank (reconcile tol book bank).2.1 =
      countMatchedBank bank + (reconcile tol book bank).2.2.length ∧
    (∀ r ∈ (reconcile tol book bank).1,
        (r ∈ unmatchedBook (reconcile tol book bank).1 ↔ r.matched = false)) ∧
    (∀ r ∈ (reconcile tol book bank).2.1,
        (r ∈ unmatchedBank (reconcile tol book bank).2.1 ↔ r.matched = false)) ∧
    (∀ i a, book.get? i = some a → bookMatchAmount a = 0 →
        (reconcile tol book bank).1.get? i = some a) := by
  refine ⟨reconcile_count_book tol book bank hinit, reconcile_count_bank tol book bank,
    ?_, ?_, ?_⟩
  · intro r hr
    constructor
    · intro hmem
      have := (List.mem_filter.mp hmem).2
      simpa using this
    · intro hm
      exact List.mem_filter.mpr ⟨hr, by simp [hm]⟩
  · intro r hr
    constructor
    · intro hmem
      have := (List.mem_filter.mp hmem).2
      simpa using this
    · intro hm
      exact List.mem_filter.mpr ⟨hr, by simp [hm]⟩
  · exact fun i a h h0 => reconcile_zero_preserved tol book bank i a h h0

/-- Claim C1 (witness): the amended bucketing statement instantiated at a
concrete one-row ledger and one-row bank statement. -/
theorem c1_exactly_once_bucketing_witness :
    countMatchedBook (reconcile 5 [exA] [exW]).1 = (reconcile 5 [exA] [exW]).2.2.length ∧
    countMatchedBank (reconcile 5 [exA] [exW]).2.1 =
      countMatchedBank [exW] + (reconcile 5 [exA] [exW]).2.2.length ∧
    (∀ r ∈ (reconcile 5 [exA] [exW]).1,
        (r ∈ unmatchedBook (reconcile 5 [exA] [exW]).1 ↔ r.matched = false)) ∧
    (∀ r ∈ (reconcile 5 [exA] [exW]).2.1,
        (r ∈ unmatchedBank (reconcile 5 [exA] [exW]).2.1 ↔ r.matched = false)) ∧
    (∀ i a, [exA].get? i = some a → bookMatchAmount a = 0 →
        (reconcile 5 [exA] [exW]).1.get? i = some a) :=
  c1_exactly_once_bucketing 5 [exA] [exW] (by decide)

/-! ## Claim C2 -/

unseal Rat.mul Rat.inv Rat.add Rat.sub in
/-- Claim C2 (counterexample): two transactions whose magnitudes differ by
exactly 0.011 DO satisfy the amount-tolerance test when the ledger magnitude
is 200, because `np.isclose` adds the relative term `1e-05 * |amt|` to the
absolute tolerance 0.01; the engine indeed matches a 200 Payment to a
200.011 Withdrawal. -/
theorem c2_counterexample :
    amountClose (200 + 11 / 1000) 200 = true ∧
    (reconcile 5 [exP] [exQ]).2.2.length = 1 ∧
    unmatchedBook (reconcile 5 [exP] [exQ]).1 = [] := by
  decide

/-- Claim C2 (amended): the amount-tolerance test is
`|bank - ledger| <= 0.01 + 1e-05 * |ledger|` (numpy `isclose` with its
default relative tolerance).  A difference of exactly 0.01 always passes;
a difference of 0.011 passes exactly when the ledger magnitude is at least
100 (so the claim's 0.011 boundary only holds for magnitudes below 100). -/
theorem c2_amount_tolerance (amt : ℚ) :
    amountClose (amt + 1 / 100) amt = true ∧
    (amountClose (amt + 11 / 1000) amt = true ↔ 100 ≤ |amt|) := by
  constructor
  · simp only [amountClose, decide_eq_true_eq]
    have h : amt + 1 / 100 - amt = 1 / 100 := by ring
    rw [h, abs_of_nonneg (by norm_num : (0 : ℚ) ≤ 1 / 100)]
    have := abs_nonneg amt
    linarith
  · simp only [amountClose, decide_eq_true_eq]
    have h : amt + 11 / 1000 - amt = 11 / 1000 := by ring
    rw [h, abs_of_nonneg (by norm_num : (0 : ℚ) ≤ 11 / 1000)]
    constructor <;> intro h2 <;> linarith

/-- Claim C2 (witness): the amended tolerance statement at ledger magnitude
200. -/
theorem c2_amount_tolerance_witness :
    amountClose ((200 : ℚ) + 1 / 100) 200 = true ∧
    (amountClose ((200 : ℚ) + 11 / 1000) 200 = true ↔ 100 ≤ |(200 : ℚ)|) :=
  c2_amount_tolerance 200

/-! ## Claim C3 -/

/-- Claim C3 (counterexample): a row containing "date" and "debit" qualifies
under the specification's keyword set but does NOT qualify for the code,
whose keyword set is only {narration, vch, type}; on a table whose only row
is that row, the code finds no header at all. -/
theorem c3_counterexample :
    qualifiesHeaderClaim ["date", "debit"] = true ∧
    qualifiesHeader ["date", "debit"] = false ∧
    findHeaderIdx [["date", "debit"]] = none := by
  decide

/-- Claim C3 (amended): a row qualifies as the header if and only if,
case-insensitively, it contains a cell matching "date" and at least one
cell matching a member of the keyword set {narration, vch, type} (not the
nine-element set the claim lists); the first qualifying row in top-to-bottom
scan order is selected. -/
theorem c3_header_detection (rows : List (List String)) (i : ℕ)
    (h : findHeaderIdx rows = some i) :
    (∀ row, qualifiesHeader row = qualifiesHeaderAmended row) ∧
    (∃ r, rows.get? i = some r ∧ qualifiesHeaderAmended r = true) ∧
    (∀ j r, j < i → rows.get? j = some r → qualifiesHeaderAmended r = false) := by
  obtain ⟨_, ⟨r, hr, hq⟩, hmin⟩ := findHeaderIdxFrom_spec rows 0 i h
  refine ⟨qualifiesHeader_eq_amended,
    ⟨r, by simpa using hr, (qualifiesHeader_eq_amended r) ▸ hq⟩, ?_⟩
  intro j r' hj hr'
  have hres := hmin j r' (by omega) hr'
  exact (qualifiesHeader_eq_amended r') ▸ hres

/-- Claim C3 (witness): the amended header-detection statement instantiated
at a table whose junk first row is followed by a ledger-style header row. -/
theorem c3_header_detection_witness :
    (∀ row, qualifiesHeader row = qualifiesHeaderAmended row) ∧
    (∃ r, [["junk"], ["Date", "Vch Type"]].get? 1 = some r ∧
        qualifiesHeaderAmended r = true) ∧
    (∀ j r, j < 1 → [["junk"], ["Date", "Vch Type"]].get? j = some r →
        qualifiesHeaderAmended r = false) :=
  c3_header_detection [["junk"], ["Date", "Vch Type"]] 1 (by decide)

/-! ## Claim C4 -/

unseal Rat.mul Rat.inv Rat.add Rat.sub in
/-- Claim C4 (counterexample): a ledger row with a parsed date and a bank
row without one, otherwise fully compatible (same 200 magnitude, compatible
directions), are NOT matched: the date filter drops date-less bank
candidates whenever the ledger row carries a date, so both rows end
unmatched — contradicting the claim that such a pair falls back to
amount-and-direction matching. -/
theorem c4_counterexample :
    isCandidate (bookMatchAmount exL) (targetKind exL) exK = true ∧
    exL.dateObj = some 0 ∧ exK.dateObj = none ∧
    (reconcile 5 [exL] [exK]).2.2 = [] ∧
    unmatchedBook (reconcile 5 [exL] [exK]).1 = [exL] ∧
    unmatchedBank (reconcile 5 [exL] [exK]).2.1 = [exK] := by
  decide

/-- Claim C4 (amended): the date-tolerance constraint is skipped only when
the LEDGER side lacks a parsed date; whenever the ledger row carries a
parsed date, any bank row the engine selects necessarily carries a parsed
date within the tolerance window — bank candidates without a parsed date
are excluded rather than matched date-free. -/
theorem c4_date_filter (tol : ℕ) (bank : List BankTxn) (target : String) (amt : ℚ)
    (d : ℤ) (j : ℕ) (h : pickBank bank target amt (some d) tol = some j) :
    ∃ k, bank.get? j = some k ∧ isCandidate amt target k = true ∧
      ∃ bd, k.dateObj = some bd ∧ daysDiff bd d ≤ tol := by
  obtain ⟨k, hk, hc, hdate⟩ := pickBank_sound h
  exact ⟨k, hk, hc, hdate d rfl⟩

unseal Rat.mul Rat.inv Rat.add Rat.sub in
/-- Claim C4 (witness): the amended date-filter statement at a concrete
dated ledger row matched against a dated bank row three days away. -/
theorem c4_date_filter_witness :
    ∃ k, [exKD].get? 0 = some k ∧ isCandidate 200 "Withdrawal" k = true ∧
      ∃ bd, k.dateObj = some bd ∧ daysDiff bd 0 ≤ 5 :=
  c4_date_filter 5 [exKD] "Withdrawal" 200 0 0 (by decide)

/-! ## Claim C5 -/

/-- Claim C5 (counterexample): for a filename ending in .xlsx the loader's
first attempt is CSV decoding with utf-8 — not the binary spreadsheet
path — because `load_data` never consults the filename; the
specification's extension-driven resolution disagrees on the same input. -/
theorem c5_counterexample :
    resolveFormat "statement.xlsx" (fun _ => true) true = some (LoadAttempt.csv "utf-8") ∧
    resolveFormatClaim "statement.xlsx" (fun _ => true) true = some LoadAttempt.excel ∧
    resolveFormat "statement.xlsx" (fun _ => true) true ≠
      resolveFormatClaim "statement.xlsx" (fun _ => true) true := by
  decide

/-- Claim C5 (amended): format resolution ignores the filename entirely —
any two filenames resolve identically; whenever utf-8 CSV parsing succeeds
the resolved strategy is CSV/utf-8 (even for .xlsx names), and the binary
spreadsheet path is reached only after every encoding in the CSV priority
list has failed. -/
theorem c5_format_resolution (name1 name2 : String) (csvOk : String → Bool)
    (excelOk : Bool) :
    resolveFormat name1 csvOk excelOk = resolveFormat name2 csvOk excelOk ∧
    (csvOk "utf-8" = true →
      resolveFormat name1 csvOk excelOk = some (LoadAttempt.csv "utf-8")) ∧
    ((∀ e ∈ encodings, csvOk e = false) →
      resolveFormat name1 csvOk excelOk =
        if excelOk then some LoadAttempt.excel else none) := by
  refine ⟨rfl, ?_, ?_⟩
  · intro h
    simp [resolveFormat, encodings, List.find?, h]
  · intro h
    have h1 := h "utf-8" (by simp [encodings])
    have h2 := h "ISO-8859-1" (by simp [encodings])
    have h3 := h "cp1252" (by simp [encodings])
    simp [resolveFormat, encodings, List.find?, h1, h2, h3]

/-- Claim C5 (witness): the amended resolution statement for an .xlsx and a
.csv filename with all parses succeeding. -/
theorem c5_format_resolution_witness :
    resolveFormat "a.xlsx" (fun _ => true) true = resolveFormat "b.csv" (fun _ => true) true ∧
    ((fun _ => true : String → Bool) "utf-8" = true →
      resolveFormat "a.xlsx" (fun _ => true) true = some (LoadAttempt.csv "utf-8")) ∧
    ((∀ e ∈ encodings, (fun _ => true : String → Bool) e = false) →
      resolveFormat "a.xlsx" (fun _ => true) true =
        if true then some LoadAttempt.excel else none) :=
  c5_format_resolution "a.xlsx" "b.csv" (fun _ => true) true

/-! ## Claim C6 -/

/-- Claim C6 (counterexample): on a table whose bounded prefix contains no
qualifying header row, the loader does NOT fail with `HeaderNotFound`: it
silently returns the initially parsed table (file row 0 as header), while
the claim's strict behavior would be the failure outcome. -/
theorem c6_counterexample :
    findHeaderIdx [["foo", "bar"]] = none ∧
    headerResolve [["foo", "bar"]] = IngestOutcome.table 0 ∧
    headerResolveClaim [["foo", "bar"]] = IngestOutcome.headerNotFound ∧
    headerResolve [["foo", "bar"]] ≠ headerResolveClaim [["foo", "bar"]] := by
  decide

/-- Claim C6 (amended): when the header scan finds no qualifying row,
`load_data` silently falls back to the initially parsed table, whose header
is file row 0 — it never produces a `HeaderNotFound` failure. -/
theorem c6_fallback (rows : List (List String)) (h : findHeaderIdx rows = none) :
    headerResolve rows = IngestOutcome.table 0 := by
  simp [headerResolve, h]

/-- Claim C6 (witness): the silent fallback at a concrete header-less
table. -/
theorem c6_fallback_witness : headerResolve [["foo", "bar"]] = IngestOutcome.table 0 :=
  c6_fallback [["foo", "bar"]] (by decide)

/-! ## Claim C7 -/

/-- Claim C7 (counterexample): a ledger row whose inbound (`Debit`) column
holds -5 with outbound (`Credit`) zero gets matching magnitude 0, not the
absolute value 5 claimed: `Match_Amount` is `Debit if Debit > 0 else
Credit` and takes no absolute value. -/
theorem c7_counterexample :
    bookMatchAmount exNeg = 0 ∧ exNeg.debit = -5 ∧ exNeg.credit = 0 ∧
    (0 : ℚ) ≠ |exNeg.debit| := by
  decide

/-- Claim C7 (amended): for rows whose two amount columns are non-negative
and at most one of them non-zero, the matching magnitude equals the value of
the non-zero column (their sum), and is zero when both are zero — but no
absolute value is taken, so a negative inbound column falls through to the
outbound column instead (see the counterexample). -/
theorem c7_magnitude :
    (∀ r : BookTxn, 0 ≤ r.debit → 0 ≤ r.credit → (r.debit = 0 ∨ r.credit = 0) →
        bookMatchAmount r = r.debit + r.credit) ∧
    (∀ k : BankTxn, 0 ≤ k.deposit → 0 ≤ k.withdrawal → (k.deposit = 0 ∨ k.withdrawal = 0) →
        bankMatchAmount k = k.deposit + k.withdrawal) := by
  constructor
  · intro r hd _ hz
    simp only [bookMatchAmount]
    by_cases hpos : r.debit > 0
    · rw [if_pos hpos]
      rcases hz with h | h
      · exact absurd h (by linarith)
      · rw [h]; ring
    · rw [if_neg hpos]
      have h0 : r.debit = 0 := le_antisymm (not_lt.mp hpos) hd
      rw [h0]; ring
  · intro k hd _ hz
    simp only [bankMatchAmount]
    by_cases hpos : k.deposit > 0
    · rw [if_pos hpos]
      rcases hz with h | h
      · exact absurd h (by linarith)
      · rw [h]; ring
    · rw [if_neg hpos]
      have h0 : k.deposit = 0 := le_antisymm (not_lt.mp hpos) hd
      rw [h0]; ring

unseal Rat.mul Rat.inv Rat.add Rat.sub in
/-- Claim C7 (witness): the amended magnitude statement at a Debit-5 ledger
row and a Deposit-5 bank row. -/
theorem c7_magnitude_witness :
    bookMatchAmount exPos = exPos.debit + exPos.credit ∧
    bankMatchAmount exPosBank = exPosBank.deposit + exPosBank.withdrawal :=
  ⟨c7_magnitude.1 exPos (by decide) (by decide) (Or.inr rfl),
   c7_magnitude.2 exPosBank (by decide) (by decide) (Or.inr rfl)⟩

/-! ## Claim C8 -/

unseal Rat.mul Rat.inv Rat.add Rat.sub in
/-- Claim C8 (confirmed): with two ledger Payment rows of 200 (A before B)
and a single bank Withdrawal row of 200, the greedy engine matches A — the
first ledger row in iteration order — to the bank row and leaves B
unmatched. -/
theorem c8_fifo_duplicates :
    reconcile 5 [exA, exB] [exW] =
      ([{ exA with matched := true }, exB], [{ exW with matched := true }], [mkRec exA exW]) ∧
    unmatchedBook (reconcile 5 [exA, exB] [exW]).1 = [exB] ∧
    (reconcile 5 [exA, exB] [exW]).2.2.length = 1 := by
  decide

/-! ## Claim C9 -/

/-- Claim C9 (confirmed): the engine never modifies any field of a ledger
or bank row other than the `Matched` flag — rows correspond one-to-one with
their input positions, agree on every original and derived column once the
flag is cleared, and the flag itself only ever moves from false to true. -/
theorem c9_frame (tol : ℕ) (book : List BookTxn) (bank : List BankTxn) :
    List.Forall₂ bookFrame book (reconcile tol book bank).1 ∧
    List.Forall₂ bankFrame bank (reconcile tol book bank).2.1 :=
  ⟨reconcile_book_frame tol book bank, reconcile_bank_frame tol book bank⟩

/-- Claim C9 (witness): the frame property at a concrete run. -/
theorem c9_frame_witness :
    List.Forall₂ bookFrame [exA] (reconcile 5 [exA] [exW]).1 ∧
    List.Forall₂ bankFrame [exW] (reconcile 5 [exA] [exW]).2.1 :=
  c9_frame 5 [exA] [exW]

/-! ## Claim C10 -/

/-- Claim C10 (confirmed): the engine is deterministic — two runs on equal
preprocessed tables with equal date tolerance produce identical outputs:
the same match records in the same order, the same matched count, and the
same unmatched buckets. -/
theorem c10_deterministic (tol1 tol2 : ℕ) (book1 book2 : List BookTxn)
    (bank1 bank2 : List BankTxn) (h1 : tol1 = tol2) (h2 : book1 = book2)
    (h3 : bank1 = bank2) :
    engineOutputs tol1 book1 bank1 = engineOutputs tol2 book2 bank2 := by
  subst h1
  subst h2
  subst h3
  rfl

/-- Claim C10 (witness): determinism at a concrete pair of runs. -/
theorem c10_deterministic_witness :
    engineOutputs 5 [exA, exB] [exW] = engineOutputs 5 [exA, exB] [exW] :=
  c10_deterministic 5 5 [exA, exB] [exA, exB] [exW] [exW] rfl rfl rfl
